import Mathlib

/-!
# Verification of `grafana_dashboard_manager/commands/dashboard_upload.py`

A shallow embedding of the dashboard-upload pipeline.  Dashboard documents
are arbitrary JSON-like Python values (`PyVal`); Python dicts are modelled as
insertion-ordered association lists, Python exceptions as `Except String`,
and the remote Grafana client as an oracle function together with a trace of
the API calls issued.
-/

set_option autoImplicit false

namespace DashboardUpload

/-- A Python/JSON value as manipulated by `dashboard_upload.py`:
strings, ints, booleans, `None`, lists, and string-keyed dicts
(insertion-ordered association lists). -/
inductive PyVal where
  | str : String → PyVal
  | int : Int → PyVal
  | bool : Bool → PyVal
  | null : PyVal
  | list : List PyVal → PyVal
  | dict : List (String × PyVal) → PyVal

namespace PyVal

/-- Python truthiness of a value (`if x:`): empty containers, empty strings,
zero, `False` and `None` are falsy. -/
def truthy : PyVal → Bool
  | .str s => !(s.isEmpty)
  | .int n => n != 0
  | .bool b => b
  | .null => false
  | .list xs => !xs.isEmpty
  | .dict xs => !xs.isEmpty

end PyVal

/-- First-match lookup in an association list (Python dict lookup; keys are
unique in any dict built by the code). -/
def dictGet : List (String × PyVal) → String → Option PyVal
  | [], _ => none
  | p :: d, k => if p.1 = k then some p.2 else dictGet d k

/-- Python dict assignment `d[k] = v`: replaces the value in place if the key
exists (keeping its position), otherwise appends the new entry. -/
def dictSet : List (String × PyVal) → String → PyVal → List (String × PyVal)
  | [], k, v => [(k, v)]
  | p :: d, k, v => if p.1 = k then (k, v) :: d else p :: dictSet d k v

/-- Python `==` between a value and a string literal: only a `str` with the
same characters compares equal. -/
def pyEqStr : PyVal → String → Bool
  | .str s, t => s = t
  | _, _ => false

/-- Python `==` between a value and an int: ints compare numerically and
booleans coerce (`True == 1`); everything else is unequal. -/
def pyEqInt : PyVal → Int → Bool
  | .int n, m => n = m
  | .bool b, m => (if b then (1 : Int) else 0) = m
  | _, _ => false

namespace PyVal

/-- Python subscript read `x[k]` with a string key: `KeyError` on a dict
missing the key, `TypeError` on lists and scalars. -/
def pyGetItem : PyVal → String → Except String PyVal
  | .dict d, k =>
      match dictGet d k with
      | some v => .ok v
      | none => .error ("KeyError: " ++ k)
  | .list _, _ => .error "TypeError: list indices must be integers or slices, not str"
  | .str _, _ => .error "TypeError: string indices must be integers"
  | _, _ => .error "TypeError: object is not subscriptable"

/-- Python `x.get(k)` on a dict: the value, or `None` when the key is absent;
`AttributeError` on anything that is not a dict. -/
def pyGet : PyVal → String → Except String PyVal
  | .dict d, k => .ok ((dictGet d k).getD .null)
  | _, _ => .error "AttributeError: object has no attribute get"

/-- Python subscript write `x[k] = v` with a string key: updates a dict,
raises `TypeError` on a list (the slip in the `rows` branch) or a scalar. -/
def pySetItem : PyVal → String → PyVal → Except String PyVal
  | .dict d, k, v => .ok (.dict (dictSet d k v))
  | .list _, _, _ => .error "TypeError: list indices must be integers or slices, not str"
  | _, _, _ => .error "TypeError: object does not support item assignment"

/-- Python iteration `for x in v`: lists yield their elements, strings their
characters, dicts their keys; scalars raise `TypeError`. -/
def pyIterate : PyVal → Except String (List PyVal)
  | .list xs => .ok xs
  | .str s => .ok (s.data.map (fun c => .str (String.mk [c])))
  | .dict d => .ok (d.map (fun p => .str p.1))
  | _ => .error "TypeError: object is not iterable"

end PyVal

/-- `models/folder.py`'s `Folder`: a remote-service folder entity with a
display `title`, a service-assigned string `uid` and numeric `id`. -/
structure Folder where
  title : String
  uid : String
  id : Int
  deriving DecidableEq, Repr

/-- The in-memory `folder_info` mapping of folder title → `Folder`
(a Python dict, modelled as an insertion-ordered association list). -/
abbrev FolderInfo := List (String × Folder)

/-- First-match lookup in the `folder_info` dict (`folder_info.get(name)`). -/
def lookupFolder : FolderInfo → String → Option Folder
  | [], _ => none
  | p :: fi, k => if p.1 = k then some p.2 else lookupFolder fi k

/-- `folder_info[k] = f`: replace in place when the key exists, else append. -/
def insertFolder : FolderInfo → String → Folder → FolderInfo
  | [], k, f => [(k, f)]
  | p :: fi, k, f => if p.1 = k then (k, f) :: fi else p :: insertFolder fi k f

/-- `folder_info.get(key)` where the key is an arbitrary Python value, as in
`folder_info.get(panel["title"])`: a string key is looked up, other hashable
scalars are simply absent, unhashable containers raise `TypeError`. -/
def folderInfoGetPy (fi : FolderInfo) : PyVal → Except String (Option Folder)
  | .str s => .ok (lookupFolder fi s)
  | .list _ => .error "TypeError: unhashable type: list"
  | .dict _ => .error "TypeError: unhashable type: dict"
  | _ => .ok none

/--
`update_panel_dashlist_folder_ids(panel, folder_info)` (lines 116–143).

```python
if panel["type"] != "dashlist":
    return panel
folder_name = panel["title"]
folder = folder_info.get(folder_name)
if folder is None:
    return panel
if panel_folder_id := panel["options"].get("folderId"):
    if panel_folder_id != folder.id:
        panel["options"]["folderId"] = folder.id
if panel_folder_uid := panel["options"].get("folderUID"):
    if panel_folder_uid != folder.uid:
        panel["options"]["folderUID"] = folder.uid
return panel
```

In-place mutation of the aliased `panel["options"]` dict is modelled by
writing the updated options dict back into the panel exactly when one of the
two guarded writes fired; otherwise the untouched input object is returned.
-/
def update_panel_dashlist_folder_ids (panel : PyVal) (folder_info : FolderInfo) :
    Except String PyVal := do
  let ptype ← panel.pyGetItem "type"
  if !(pyEqStr ptype "dashlist") then
    return panel
  let folder_name ← panel.pyGetItem "title"
  let folder? ← folderInfoGetPy folder_info folder_name
  match folder? with
  | none => return panel
  | some folder =>
    let opts0 ← panel.pyGetItem "options"
    let panel_folder_id ← opts0.pyGet "folderId"
    let write1 := panel_folder_id.truthy && !(pyEqInt panel_folder_id folder.id)
    let opts1 ← if write1 then opts0.pySetItem "folderId" (.int folder.id) else pure opts0
    let panel_folder_uid ← opts1.pyGet "folderUID"
    let write2 := panel_folder_uid.truthy && !(pyEqStr panel_folder_uid folder.uid)
    let opts2 ← if write2 then opts1.pySetItem "folderUID" (.str folder.uid) else pure opts1
    if write1 || write2 then
      panel.pySetItem "options" opts2
    else
      return panel

/--
The body of the `rows` loop of `update_dashlist_folder_ids` (lines 106–109):

```python
for row in dashboard["rows"]:
    dashboard["rows"]["panels"] = [
        update_panel_dashlist_folder_ids(panel, folder_info) for panel in row["panels"]
    ]
```

Python evaluates the comprehension first, then the assignment target
`dashboard["rows"]` and its item assignment.  When `dashboard["rows"]` is a
list (the usual shape) the item assignment with the string key `"panels"`
raises `TypeError`; in-place mutation of a dict-shaped `rows` is modelled by
writing the updated object back into the `rows` slot.
-/
def update_rows_loop (dashboard : PyVal) (folder_info : FolderInfo) :
    List PyVal → Except String PyVal
  | [] => .ok dashboard
  | row :: rest => do
      let row_panels ← row.pyGetItem "panels"
      let elems ← row_panels.pyIterate
      let updated ← elems.mapM (fun p => update_panel_dashlist_folder_ids p folder_info)
      let rows_obj ← dashboard.pyGetItem "rows"
      let rows_obj ← rows_obj.pySetItem "panels" (.list updated)
      let dashboard ← dashboard.pySetItem "rows" rows_obj
      update_rows_loop dashboard folder_info rest

/--
`update_dashlist_folder_ids(dashboard, folder_info)` (lines 95–113).

```python
if dashboard.get("panels"):
    dashboard["panels"] = [update_panel_dashlist_folder_ids(panel, folder_info)
                           for panel in dashboard["panels"]]
elif dashboard.get("rows"):
    for row in dashboard["rows"]:
        dashboard["rows"]["panels"] = [...]
else:
    logger.info(f"{dashboard['title']} does not have any any panels")
return dashboard
```
-/
def update_dashlist_folder_ids (dashboard : PyVal) (folder_info : FolderInfo) :
    Except String PyVal := do
  let panels_val ← dashboard.pyGet "panels"
  if panels_val.truthy then
    let src ← dashboard.pyGetItem "panels"
    let elems ← src.pyIterate
    let updated ← elems.mapM (fun p => update_panel_dashlist_folder_ids p folder_info)
    dashboard.pySetItem "panels" (.list updated)
  else do
    let rows_val ← dashboard.pyGet "rows"
    if rows_val.truthy then
      let rows ← rows_val.pyIterate
      update_rows_loop dashboard folder_info rows
    else do
      let _ ← dashboard.pyGetItem "title"
      return dashboard

/-- A call issued to the Grafana HTTP client, recorded in issue order. -/
inductive ApiCall where
  | createFolder (title : String) (folder_uid : Option String)
  | createDashboard (dashboard : PyVal) (folder_uid : String)
  | createHome (dashboard : PyVal)
  | setHome (dashboard_uid : String)

/-- One immediate subdirectory of the source directory: its `name` and the
parsed dashboard documents of its files, in iteration order. -/
structure SourceFolderDir where
  name : String
  files : List PyVal

/--
One iteration of the outer directory loop of `upload_dashboards`
(lines 45–68): look the directory name up in `folder_info`; if known, create
the remote folder with the known uid, otherwise create it without a uid and
record the returned `Folder` under its title; then rewrite and upload every
dashboard file, each under `folder_info[folder.name].uid` (a `KeyError` when
that key is absent).  `create` is the oracle for `client.folders.create`.
-/
def process_folder_dir (create : String → Option String → Folder)
    (folder_info : FolderInfo) (dir : SourceFolderDir) :
    Except String (FolderInfo × List ApiCall) := do
  let (fi, calls) :=
    match lookupFolder folder_info dir.name with
    | some known_folder =>
        (folder_info, [ApiCall.createFolder dir.name (some known_folder.uid)])
    | none =>
        let f := create dir.name none
        (insertFolder folder_info f.title f, [ApiCall.createFolder dir.name none])
  let uploads ← dir.files.foldlM
    (fun acc doc => do
      let doc ← update_dashlist_folder_ids doc fi
      match lookupFolder fi dir.name with
      | some f => pure (acc ++ [ApiCall.createDashboard doc f.uid])
      | none => Except.error ("KeyError: " ++ dir.name))
    calls
  return (fi, uploads)

/-- The full directory loop of `upload_dashboards` (lines 45–68), over every
subdirectory of the source directory in enumeration order. -/
def upload_folders (create : String → Option String → Folder)
    (folder_info : FolderInfo) (dirs : List SourceFolderDir) :
    Except String (FolderInfo × List ApiCall) :=
  dirs.foldlM
    (fun acc dir => do
      let (fi, calls) ← process_folder_dir create acc.1 dir
      return (fi, acc.2 ++ calls))
    (folder_info, [])

/-- Pydantic validation of a manifest entry into a `Folder`
(`Folder.model_validate(value)`): requires a JSON object carrying a string
`title`, a string `uid` and an integer `id`. -/
def Folder.model_validate : PyVal → Except String Folder
  | .dict d =>
      match dictGet d "title", dictGet d "uid", dictGet d "id" with
      | some (.str t), some (.str u), some (.int i) => .ok ⟨t, u, i⟩
      | _, _, _ => .error "ValidationError"
  | _ => .error "ValidationError"

/--
Folder-mapping resolution of `upload_dashboards` (lines 33–40).
`manifest` is the parsed content of `source_dir/folders.json` when that file
exists, `none` when it is missing; `all_folders` is the remote service's
folder list (`client.folders.all_folders()`, already typed).

```python
if not (folder_info_dir.exists() and folder_info_dir.is_file()):
    logger.warning(...)  # twice
    folder_info = {x.title: Folder.model_validate(x) for x in client.folders.all_folders()}
else:
    folder_info = {key: Folder.model_validate(value)
                   for key, value in json.loads(file.read()).items()}
```
-/
def load_folder_info (manifest : Option PyVal) (all_folders : List Folder) :
    Except String FolderInfo :=
  match manifest with
  | none => .ok (all_folders.foldl (fun fi f => insertFolder fi f.title f) [])
  | some m => do
      let entries ← (match m with
        | PyVal.dict d => Except.ok d
        | _ => Except.error "AttributeError: object has no attribute items")
      entries.foldlM
        (fun fi kv => do
          let f ← Folder.model_validate kv.2
          return insertFolder fi kv.1 f) []

/--
`set_home_dashboard(config, client, folder_info)` (lines 73–92).
`source` is `config.source`; `home_json` is the parsed content of
`source/home.json` when that path is a file, `none` otherwise; `create_home`
is the oracle for `client.dashboards.create_home`.  Returns the list of
service calls issued.  The `logger.info` f-string reads `dashboard["title"]`
between the two calls, so a home dashboard without a title raises `KeyError`
after `create_home` has already been issued.
-/
def set_home_dashboard (source : Option String) (home_json : Option PyVal)
    (folder_info : FolderInfo) (create_home : PyVal → String) :
    Except String (List ApiCall) :=
  match source with
  | none => .ok []
  | some _ =>
      match home_json with
      | none => .ok []
      | some dashboard => do
          let dashboard ← update_dashlist_folder_ids dashboard folder_info
          let dashboard_uid := create_home dashboard
          let _ ← dashboard.pyGetItem "title"
          return [ApiCall.createHome dashboard, ApiCall.setHome dashboard_uid]

/-- The whole `upload_dashboards` handler (lines 21–70) for a configured
source directory: resolve the folder mapping, materialize folders and upload
dashboards, then set the home dashboard. -/
def upload_dashboards (create : String → Option String → Folder)
    (create_home : PyVal → String) (manifest : Option PyVal)
    (all_folders : List Folder) (dirs : List SourceFolderDir)
    (source : String) (home_json : Option PyVal) :
    Except String (FolderInfo × List ApiCall) := do
  let folder_info ← load_folder_info manifest all_folders
  let (folder_info, calls) ← upload_folders create folder_info dirs
  let home_calls ← set_home_dashboard (some source) home_json folder_info create_home
  return (folder_info, calls ++ home_calls)

/-- The rewrite that the matched-dashlist branch of
`update_panel_dashlist_folder_ids` performs on the options dict: a guarded
conditional write for `folderId`, then one for `folderUID`. -/
def matchedOptionsRewrite (opts : List (String × PyVal)) (folder : Folder) :
    List (String × PyVal) × Bool :=
  let v := (dictGet opts "folderId").getD .null
  let w1 := v.truthy && !(pyEqInt v folder.id)
  let opts1 := if w1 then dictSet opts "folderId" (.int folder.id) else opts
  let u := (dictGet opts1 "folderUID").getD .null
  let w2 := u.truthy && !(pyEqStr u folder.uid)
  let opts2 := if w2 then dictSet opts1 "folderUID" (.str folder.uid) else opts1
  (opts2, w1 || w2)

/-! ## Basic lemmas about the embedding -/

@[simp] theorem ok_bind {α β : Type} (a : α) (f : α → Except String β) :
    (Except.ok a >>= f) = f a := rfl

@[simp] theorem error_bind {α β : Type} (e : String) (f : α → Except String β) :
    ((Except.error e : Except String α) >>= f) = Except.error e := rfl

@[simp] theorem dictGet_dictSet_self (d : List (String × PyVal)) (k : String) (v : PyVal) :
    dictGet (dictSet d k v) k = some v := by
  induction d with
  | nil => simp [dictGet, dictSet]
  | cons p d ih =>
      by_cases h : p.1 = k <;> simp [dictGet, dictSet, h, ih]

@[simp] theorem dictGet_dictSet_ne (d : List (String × PyVal)) (k k' : String) (v : PyVal)
    (h : k' ≠ k) : dictGet (dictSet d k v) k' = dictGet d k' := by
  induction d with
  | nil => simp [dictGet, dictSet, Ne.symm h]
  | cons p d ih =>
      by_cases hp : p.1 = k
      · simp [dictGet, dictSet, hp, Ne.symm h]
      · simp [dictGet, dictSet, hp, ih]

@[simp] theorem lookupFolder_insertFolder_self (fi : FolderInfo) (k : String) (f : Folder) :
    lookupFolder (insertFolder fi k f) k = some f := by
  induction fi with
  | nil => simp [lookupFolder, insertFolder]
  | cons p fi ih =>
      by_cases h : p.1 = k <;> simp [lookupFolder, insertFolder, h, ih]

@[simp] theorem lookupFolder_insertFolder_ne (fi : FolderInfo) (k k' : String) (f : Folder)
    (h : k' ≠ k) : lookupFolder (insertFolder fi k f) k' = lookupFolder fi k' := by
  induction fi with
  | nil => simp [lookupFolder, insertFolder, Ne.symm h]
  | cons p fi ih =>
      by_cases hp : p.1 = k
      · simp [lookupFolder, insertFolder, hp, Ne.symm h]
      · simp [lookupFolder, insertFolder, hp, ih]

/-- Characterization of `update_panel_dashlist_folder_ids` on a dashlist
panel whose title resolves to a folder and which carries an options dict:
the result is a panel whose options dict is `matchedOptionsRewrite` of the
input options, and whose every other entry is that of the input panel. -/
theorem update_panel_matched (p opts : List (String × PyVal))
    (fi : FolderInfo) (t : String) (folder : Folder)
    (htype : dictGet p "type" = some (.str "dashlist"))
    (htitle : dictGet p "title" = some (.str t))
    (hfold : lookupFolder fi t = some folder)
    (hopts : dictGet p "options" = some (.dict opts)) :
    ∃ p', update_panel_dashlist_folder_ids (.dict p) fi = .ok (.dict p') ∧
      dictGet p' "options" = some (.dict (matchedOptionsRewrite opts folder).1) ∧
      ∀ k, k ≠ "options" → dictGet p' k = dictGet p k := by
  simp only [update_panel_dashlist_folder_ids, PyVal.pyGetItem, PyVal.pyGet,
    PyVal.pySetItem, folderInfoGetPy, htype, htitle, hfold, hopts, ok_bind,
    pure_bind, bind_assoc, bind_pure_comp]
  simp only [pyEqStr, decide_True, Bool.not_true, Bool.false_eq_true, if_false,
    ok_bind, pure_bind, Except.map_ok]
  have hne : ∀ (d : List (String × PyVal)) (v : PyVal),
      dictGet (dictSet d "folderId" v) "folderUID" = dictGet d "folderUID" :=
    fun d v => dictGet_dictSet_ne d "folderId" "folderUID" v (by decide)
  simp only [hne]
  split
  · next h1 =>
      split
      · next h2 =>
          refine ⟨dictSet p "options"
            (.dict (dictSet (dictSet opts "folderId" (.int folder.id)) "folderUID"
              (.str folder.uid))), ?_, ?_, ?_⟩
          · simp [h1, h2]
          · simp [matchedOptionsRewrite, hne, h1, h2, pyEqStr]
          · intro k hk
            simp [hk]
      · next h2 =>
          refine ⟨dictSet p "options" (.dict (dictSet opts "folderId" (.int folder.id))),
            ?_, ?_, ?_⟩
          · simp [h1, h2]
          · simp [matchedOptionsRewrite, hne, h1, h2, pyEqStr]
          · intro k hk
            simp [hk]
  · next h1 =>
      split
      · next h2 =>
          refine ⟨dictSet p "options" (.dict (dictSet opts "folderUID" (.str folder.uid))),
            ?_, ?_, ?_⟩
          · simp [h1, h2]
          · simp [matchedOptionsRewrite, hne, h1, h2, pyEqStr]
          · intro k hk
            simp [hk]
      · next h2 =>
          refine ⟨p, ?_, ?_, fun k hk => rfl⟩
          · simp [h1, h2]
            rfl
          · simp [matchedOptionsRewrite, hne, h1, h2, pyEqStr, hopts]

/-- Entry-level description of `matchedOptionsRewrite`: `folderId` is
overwritten exactly when a truthy value is present and Python-unequal to the
folder's `id`, `folderUID` likewise against the folder's `uid`, and every
other key keeps its value (so absent keys stay absent). -/
theorem matchedOptionsRewrite_spec (opts : List (String × PyVal)) (folder : Folder) :
    dictGet (matchedOptionsRewrite opts folder).1 "folderId" =
      (if ((dictGet opts "folderId").getD .null).truthy &&
          !(pyEqInt ((dictGet opts "folderId").getD .null) folder.id)
       then some (.int folder.id) else dictGet opts "folderId") ∧
    dictGet (matchedOptionsRewrite opts folder).1 "folderUID" =
      (if ((dictGet opts "folderUID").getD .null).truthy &&
          !(pyEqStr ((dictGet opts "folderUID").getD .null) folder.uid)
       then some (.str folder.uid) else dictGet opts "folderUID") ∧
    ∀ k, k ≠ "folderId" → k ≠ "folderUID" →
      dictGet (matchedOptionsRewrite opts folder).1 k = dictGet opts k := by
  have hne1 : ∀ (d : List (String × PyVal)) (v : PyVal),
      dictGet (dictSet d "folderId" v) "folderUID" = dictGet d "folderUID" :=
    fun d v => dictGet_dictSet_ne d "folderId" "folderUID" v (by decide)
  have hne2 : ∀ (d : List (String × PyVal)) (v : PyVal),
      dictGet (dictSet d "folderUID" v) "folderId" = dictGet d "folderId" :=
    fun d v => dictGet_dictSet_ne d "folderUID" "folderId" v (by decide)
  unfold matchedOptionsRewrite
  simp only [hne1]
  refine ⟨?_, ?_, ?_⟩
  · split
    · next h1 =>
        split
        · next h2 => simp [hne2, h1]
        · next h2 => simp [h1]
    · next h1 =>
        split
        · next h2 => simp [hne2, h1]
        · next h2 => simp [h1]
  · split
    · next h1 =>
        split
        · next h2 =>
            simp only [hne1] at h2
            simp [hne1, h2]
        · next h2 =>
            simp only [hne1] at h2
            simp [hne1, h2]
    · next h1 =>
        split
        · next h2 => simp [h2]
        · next h2 => simp [h2]
  · intro k hk1 hk2
    split
    · split
      · simp [dictGet_dictSet_ne _ _ _ _ hk2, dictGet_dictSet_ne _ _ _ _ hk1]
      · simp [dictGet_dictSet_ne _ _ _ _ hk1]
    · split
      · simp [dictGet_dictSet_ne _ _ _ _ hk2]
      · rfl

/-- Successful `mapM` over `Except` yields, for each element of the input, a
successful image that is a member of the output list. -/
theorem mapM_ok_mem {α β : Type} (f : α → Except String β) :
    ∀ (l : List α) (l' : List β), l.mapM f = Except.ok l' →
      ∀ a ∈ l, ∃ b ∈ l', f a = Except.ok b := by
  intro l
  induction l with
  | nil =>
      intro l' h a ha
      exact absurd ha (List.not_mem_nil a)
  | cons x xs ih =>
      intro l' h a ha
      rw [List.mapM_cons] at h
      cases hfx : f x with
      | error e => rw [hfx] at h; simp at h
      | ok b =>
          rw [hfx] at h
          simp only [ok_bind] at h
          cases hxs : xs.mapM f with
          | error e => rw [hxs] at h; simp at h
          | ok bs =>
              rw [hxs] at h
              simp only [ok_bind] at h
              have hl' : l' = b :: bs := by
                cases h; rfl
              subst hl'
              rcases List.mem_cons.mp ha with rfl | ha'
              · exact ⟨b, List.mem_cons_self b bs, hfx⟩
              · obtain ⟨c, hc, hfc⟩ := ih bs hxs a ha'
                exact ⟨c, List.mem_cons_of_mem b hc, hfc⟩

/-- A successful `foldlM` whose step function only ever appends to its
accumulator produces an extension of the initial accumulator. -/
theorem foldlM_append {α β : Type} (g : List β → α → Except String (List β))
    (hg : ∀ acc a r, g acc a = Except.ok r → ∃ s, r = acc ++ s) :
    ∀ (l : List α) (acc r : List β), l.foldlM g acc = Except.ok r →
      ∃ s, r = acc ++ s := by
  intro l
  induction l with
  | nil =>
      intro acc r h
      exact ⟨[], by cases h; simp⟩
  | cons x xs ih =>
      intro acc r h
      rw [List.foldlM_cons] at h
      cases hgx : g acc x with
      | error e => rw [hgx] at h; simp at h
      | ok acc' =>
          rw [hgx] at h
          simp only [ok_bind] at h
          obtain ⟨s1, hs1⟩ := hg acc x acc' hgx
          obtain ⟨s2, hs2⟩ := ih acc' r h
          exact ⟨s1 ++ s2, by simp [hs1, hs2]⟩

/-- Looking a title up in a fold of `insertFolder` steps over folders none of
which carries that title is the same as looking it up in the accumulator. -/
theorem foldl_insert_not_mem :
    ∀ (l : List Folder) (acc : FolderInfo) (t : String),
      t ∉ l.map Folder.title →
      lookupFolder (l.foldl (fun fi f => insertFolder fi f.title f) acc) t =
        lookupFolder acc t := by
  intro l
  induction l with
  | nil => intro acc t _; rfl
  | cons g rest ih =>
      intro acc t ht
      rw [List.map_cons, List.mem_cons, not_or] at ht
      rw [List.foldl_cons, ih _ t ht.2,
        lookupFolder_insertFolder_ne _ _ _ _ ht.1]

/-- In the mapping built by folding `insertFolder` over a list of folders
with pairwise-distinct titles, each folder is found under its own title. -/
theorem build_lookup :
    ∀ (l : List Folder) (acc : FolderInfo), (l.map Folder.title).Nodup →
      ∀ f ∈ l, lookupFolder (l.foldl (fun fi f => insertFolder fi f.title f) acc) f.title = some f := by
  intro l
  induction l with
  | nil =>
      intro acc _ f hf
      exact absurd hf (List.not_mem_nil f)
  | cons g rest ih =>
      intro acc hnd f hf
      rw [List.map_cons, List.nodup_cons] at hnd
      rcases List.mem_cons.mp hf with rfl | hf'
      · rw [List.foldl_cons, foldl_insert_not_mem rest _ f.title hnd.1,
          lookupFolder_insertFolder_self]
      · exact ih _ hnd.2 f hf'

/-- Destructuring a successful `Except` bind. -/
theorem except_bind_ok {α β : Type} (x : Except String α) (f : α → Except String β) (b : β)
    (h : (x >>= f) = .ok b) : ∃ a, x = .ok a ∧ f a = .ok b := by
  cases x with
  | error e => simp at h
  | ok a => exact ⟨a, rfl, h⟩

/-! ## Claim theorems -/

/-- C4: every panel whose `type` is not `"dashlist"`, and every dashlist
panel whose `title` matches no key of the folder mapping, is returned by
`update_panel_dashlist_folder_ids` unchanged (object-equal to its input). -/
theorem C4_non_matching_panels_unchanged (p : List (String × PyVal)) (fi : FolderInfo) :
    (∀ tv, dictGet p "type" = some tv → pyEqStr tv "dashlist" = false →
      update_panel_dashlist_folder_ids (.dict p) fi = .ok (.dict p)) ∧
    (∀ t, dictGet p "type" = some (.str "dashlist") →
      dictGet p "title" = some (.str t) → lookupFolder fi t = none →
      update_panel_dashlist_folder_ids (.dict p) fi = .ok (.dict p)) := by
  constructor
  · intro tv htv hne
    simp only [update_panel_dashlist_folder_ids, PyVal.pyGetItem, htv, ok_bind, hne,
      Bool.not_false, if_true]
    rfl
  · intro t htv htitle hnone
    simp only [update_panel_dashlist_folder_ids, PyVal.pyGetItem, folderInfoGetPy,
      htv, htitle, hnone, ok_bind]
    simp [pyEqStr]
    rfl

/-- Witness for C4 at a concrete graph panel and a concrete dashlist panel
whose title is unknown to the folder mapping. -/
theorem C4_witness :
    update_panel_dashlist_folder_ids (.dict [("type", .str "graph"), ("title", .str "CPU")])
        [("Team A", ⟨"Team A", "abc", 1⟩)] =
      .ok (.dict [("type", .str "graph"), ("title", .str "CPU")]) ∧
    update_panel_dashlist_folder_ids
        (.dict [("type", .str "dashlist"), ("title", .str "Recently viewed")])
        [("Team A", ⟨"Team A", "abc", 1⟩)] =
      .ok (.dict [("type", .str "dashlist"), ("title", .str "Recently viewed")]) :=
  ⟨(C4_non_matching_panels_unchanged _ _).1 (.str "graph") rfl rfl,
   (C4_non_matching_panels_unchanged _ _).2 "Recently viewed" rfl rfl rfl⟩

/-- C9 (implicit): a dashlist panel whose title matches a known folder but
which has no `"options"` key makes `update_panel_dashlist_folder_ids` fail
with a key-lookup error rather than return the panel. -/
theorem C9_missing_options_keyerror (p : List (String × PyVal)) (fi : FolderInfo)
    (t : String) (folder : Folder)
    (htype : dictGet p "type" = some (.str "dashlist"))
    (htitle : dictGet p "title" = some (.str t))
    (hfold : lookupFolder fi t = some folder)
    (hopts : dictGet p "options" = none) :
    update_panel_dashlist_folder_ids (.dict p) fi = .error "KeyError: options" := by
  simp only [update_panel_dashlist_folder_ids, PyVal.pyGetItem, folderInfoGetPy,
    htype, htitle, hfold, hopts, ok_bind]
  simp [pyEqStr]

/-- Witness for C9 at a concrete matched dashlist panel without options. -/
theorem C9_witness :
    update_panel_dashlist_folder_ids
        (.dict [("type", .str "dashlist"), ("title", .str "Team A")])
        [("Team A", ⟨"Team A", "abc", 1⟩)] =
      .error "KeyError: options" :=
  C9_missing_options_keyerror _ _ "Team A" ⟨"Team A", "abc", 1⟩ rfl rfl rfl rfl

/-- C8: if the configured source directory is `None`, or `home.json` is not
a file, `set_home_dashboard` returns without error having made no remote
calls (no `create_home`, no `set_home`). -/
theorem C8_home_dashboard_skipped (source : Option String) (home_json : Option PyVal)
    (fi : FolderInfo) (create_home : PyVal → String) :
    (source = none → set_home_dashboard source home_json fi create_home = .ok []) ∧
    (home_json = none → set_home_dashboard source home_json fi create_home = .ok []) := by
  constructor
  · rintro rfl
    rfl
  · rintro rfl
    cases source <;> rfl

/-- C6: a dashboard document having a title but neither a non-empty `panels`
list nor a non-empty `rows` list is returned unchanged by
`update_dashlist_folder_ids`, and the directory loop uploads it unmodified. -/
theorem C6_no_panels_uploaded_unchanged (d : List (String × PyVal)) (fi : FolderInfo)
    (create : String → Option String → Folder) (name : String) (kf : Folder) (tv : PyVal)
    (hp : dictGet d "panels" = none ∨ dictGet d "panels" = some (.list []))
    (hr : dictGet d "rows" = none ∨ dictGet d "rows" = some (.list []))
    (ht : dictGet d "title" = some tv)
    (hkf : lookupFolder fi name = some kf) :
    update_dashlist_folder_ids (.dict d) fi = .ok (.dict d) ∧
    process_folder_dir create fi ⟨name, [.dict d]⟩ =
      .ok (fi, [ApiCall.createFolder name (some kf.uid),
                ApiCall.createDashboard (.dict d) kf.uid]) := by
  have h1 : update_dashlist_folder_ids (.dict d) fi = .ok (.dict d) := by
    simp only [update_dashlist_folder_ids, PyVal.pyGet, PyVal.pyGetItem, ok_bind]
    rcases hp with hp | hp <;> rcases hr with hr | hr <;>
      simp [hp, hr, PyVal.truthy, ht]
  refine ⟨h1, ?_⟩
  simp only [process_folder_dir, hkf, List.foldlM_cons, List.foldlM_nil, h1, ok_bind]
  rfl

/-- Witness for C6 at a concrete panel-less dashboard in a known folder. -/
theorem C6_witness :
    update_dashlist_folder_ids (.dict [("title", .str "Empty")]) [("F", ⟨"F", "u", 1⟩)] =
      .ok (.dict [("title", .str "Empty")]) ∧
    process_folder_dir (fun n _ => ⟨n, "gen", 9⟩) [("F", ⟨"F", "u", 1⟩)]
        ⟨"F", [.dict [("title", .str "Empty")]]⟩ =
      .ok ([("F", ⟨"F", "u", 1⟩)],
           [ApiCall.createFolder "F" (some "u"),
            ApiCall.createDashboard (.dict [("title", .str "Empty")]) "u"]) :=
  C6_no_panels_uploaded_unchanged [("title", .str "Empty")] [("F", ⟨"F", "u", 1⟩)]
    (fun n _ => ⟨n, "gen", 9⟩) "F" ⟨"F", "u", 1⟩ (.str "Empty")
    (Or.inl rfl) (Or.inl rfl) rfl rfl

/-- C2: on a dashboard with a `rows` list and no top-level `panels`, the
write-back `dashboard["rows"]["panels"] = ...` subscripts the rows *list*
with a string key, so `update_dashlist_folder_ids` raises `TypeError` after
the first row instead of inspecting and patching every row's panels; here
the second row's matching dashlist panel is never reached. -/
theorem C2_rows_write_back_crashes :
    update_dashlist_folder_ids
        (.dict [("title", .str "Overview"),
                ("rows", .list
                  [.dict [("panels", .list [.dict [("type", .str "graph")]])],
                   .dict [("panels", .list
                     [.dict [("type", .str "dashlist"), ("title", .str "Team A"),
                             ("options", .dict [("folderId", .int 99)])]])]])])
        [("Team A", ⟨"Team A", "abc", 1⟩)] =
      .error "TypeError: list indices must be integers or slices, not str" := rfl

/-- C1 counterexample: a dashlist panel whose title matches the known folder
`Team A` (with `id = 1`) but whose `options.folderId` is the falsy value `0`
is returned by `update_panel_dashlist_folder_ids` with `options.folderId`
still `0`, not the folder's `id`. -/
theorem C1_counterexample :
    update_panel_dashlist_folder_ids
        (.dict [("type", .str "dashlist"), ("title", .str "Team A"),
                ("options", .dict [("folderId", .int 0), ("folderUID", .str "abc")])])
        [("Team A", ⟨"Team A", "abc", 1⟩)] =
      .ok (.dict [("type", .str "dashlist"), ("title", .str "Team A"),
                  ("options", .dict [("folderId", .int 0), ("folderUID", .str "abc")])]) ∧
    lookupFolder [("Team A", ⟨"Team A", "abc", 1⟩)] "Team A" = some ⟨"Team A", "abc", 1⟩ ∧
    dictGet [("folderId", PyVal.int 0), ("folderUID", PyVal.str "abc")] "folderId" =
      some (.int 0) ∧
    pyEqInt (.int 0) (Folder.mk "Team A" "abc" 1).id = false :=
  ⟨rfl, rfl, rfl, rfl⟩

/-- C1 (amended): for a dashlist panel whose title matches a known folder,
after `update_panel_dashlist_folder_ids` the panel's `options.folderId` is
Python-equal to the folder's `id` provided options carried a truthy
`folderId` value beforehand, and its `options.folderUID` is Python-equal to
the folder's `uid` provided options carried a truthy `folderUID` value
beforehand; a falsy (or absent) value of either key is left untouched; and
`update_dashlist_folder_ids` carries the rewritten panel in the rewritten
document's `panels` list. -/
theorem C1_matched_dashlist_rewritten (p opts : List (String × PyVal)) (fi : FolderInfo)
    (t : String) (folder : Folder)
    (htype : dictGet p "type" = some (.str "dashlist"))
    (htitle : dictGet p "title" = some (.str t))
    (hfold : lookupFolder fi t = some folder)
    (hopts : dictGet p "options" = some (.dict opts)) :
    (∃ p' opts', update_panel_dashlist_folder_ids (.dict p) fi = .ok (.dict p') ∧
      dictGet p' "options" = some (.dict opts') ∧
      (((dictGet opts "folderId").getD .null).truthy = true →
        ∃ v, dictGet opts' "folderId" = some v ∧ pyEqInt v folder.id = true) ∧
      (((dictGet opts "folderUID").getD .null).truthy = true →
        ∃ u, dictGet opts' "folderUID" = some u ∧ pyEqStr u folder.uid = true) ∧
      (((dictGet opts "folderId").getD .null).truthy = false →
        dictGet opts' "folderId" = dictGet opts "folderId") ∧
      (((dictGet opts "folderUID").getD .null).truthy = false →
        dictGet opts' "folderUID" = dictGet opts "folderUID")) ∧
    (∀ (d : List (String × PyVal)) (ps ps' : List PyVal),
      dictGet d "panels" = some (.list ps) → PyVal.dict p ∈ ps →
      ps.mapM (fun q => update_panel_dashlist_folder_ids q fi) = .ok ps' →
      update_dashlist_folder_ids (.dict d) fi =
        .ok (.dict (dictSet d "panels" (.list ps'))) ∧
      ∃ p' opts', PyVal.dict p' ∈ ps' ∧
        dictGet p' "options" = some (.dict opts') ∧
        (((dictGet opts "folderId").getD .null).truthy = true →
          ∃ v, dictGet opts' "folderId" = some v ∧ pyEqInt v folder.id = true) ∧
        (((dictGet opts "folderUID").getD .null).truthy = true →
          ∃ u, dictGet opts' "folderUID" = some u ∧ pyEqStr u folder.uid = true) ∧
        (((dictGet opts "folderId").getD .null).truthy = false →
          dictGet opts' "folderId" = dictGet opts "folderId") ∧
        (((dictGet opts "folderUID").getD .null).truthy = false →
          dictGet opts' "folderUID" = dictGet opts "folderUID")) := by
  obtain ⟨p', hup, hopt', hframe⟩ :=
    update_panel_matched p opts fi t folder htype htitle hfold hopts
  obtain ⟨hFid, hFuid, _⟩ := matchedOptionsRewrite_spec opts folder
  have hv : ((dictGet opts "folderId").getD .null).truthy = true →
      ∃ v, dictGet (matchedOptionsRewrite opts folder).1 "folderId" = some v ∧
        pyEqInt v folder.id = true := by
    intro hid
    rw [hFid]
    split
    · exact ⟨.int folder.id, rfl, by simp [pyEqInt]⟩
    · next hcond =>
        cases hdg : dictGet opts "folderId" with
        | none =>
            rw [hdg] at hid
            simp [PyVal.truthy] at hid
        | some w =>
            rw [hdg] at hid hcond
            simp only [Option.getD_some] at hid hcond
            refine ⟨w, rfl, ?_⟩
            simpa [hid] using hcond
  have hu : ((dictGet opts "folderUID").getD .null).truthy = true →
      ∃ u, dictGet (matchedOptionsRewrite opts folder).1 "folderUID" = some u ∧
        pyEqStr u folder.uid = true := by
    intro huid
    rw [hFuid]
    split
    · exact ⟨.str folder.uid, rfl, by simp [pyEqStr]⟩
    · next hcond =>
        cases hdg : dictGet opts "folderUID" with
        | none =>
            rw [hdg] at huid
            simp [PyVal.truthy] at huid
        | some w =>
            rw [hdg] at huid hcond
            simp only [Option.getD_some] at huid hcond
            refine ⟨w, rfl, ?_⟩
            simpa [huid] using hcond
  have hvf : ((dictGet opts "folderId").getD .null).truthy = false →
      dictGet (matchedOptionsRewrite opts folder).1 "folderId" =
        dictGet opts "folderId" := by
    intro hid
    rw [hFid]
    simp [hid]
  have huf : ((dictGet opts "folderUID").getD .null).truthy = false →
      dictGet (matchedOptionsRewrite opts folder).1 "folderUID" =
        dictGet opts "folderUID" := by
    intro huid
    rw [hFuid]
    simp [huid]
  refine ⟨⟨p', (matchedOptionsRewrite opts folder).1, hup, hopt', hv, hu, hvf, huf⟩, ?_⟩
  intro d ps ps' hpanels hmem hmap
  have hplist : ps.isEmpty = false := by
    cases ps with
    | nil => exact absurd hmem (List.not_mem_nil _)
    | cons a l => rfl
  have hupd : update_dashlist_folder_ids (.dict d) fi =
      .ok (.dict (dictSet d "panels" (.list ps'))) := by
    simp only [update_dashlist_folder_ids, PyVal.pyGet, PyVal.pyGetItem,
      PyVal.pyIterate, hpanels, Option.getD_some, ok_bind]
    simp only [PyVal.truthy, hplist, Bool.not_false, if_true]
    rw [hmap]
    rfl
  refine ⟨hupd, ?_⟩
  obtain ⟨q, hqmem, hq⟩ := mapM_ok_mem _ ps ps' hmap (.dict p) hmem
  have hq' : update_panel_dashlist_folder_ids (.dict p) fi = .ok q := hq
  rw [hup] at hq'
  have hq2 : PyVal.dict p' = q := Except.ok.inj hq'
  rw [← hq2] at hqmem
  exact ⟨p', (matchedOptionsRewrite opts folder).1, hqmem, hopt', hv, hu, hvf, huf⟩

/-- Witness for C1 (amended) at the spec's concrete scenario: a matched
dashlist panel carrying only a truthy `folderId = 99` and no `folderUID`
key (whose absent, falsy value must stay untouched). -/
theorem C1_witness :
    ∃ p' opts',
      update_panel_dashlist_folder_ids
          (.dict [("type", .str "dashlist"), ("title", .str "Team A"),
                  ("options", .dict [("folderId", .int 99)])])
          [("Team A", ⟨"Team A", "abc", 1⟩)] =
        .ok (.dict p') ∧
      dictGet p' "options" = some (.dict opts') ∧
      (((dictGet [("folderId", PyVal.int 99)] "folderId").getD .null).truthy = true →
        ∃ v, dictGet opts' "folderId" = some v ∧
          pyEqInt v (Folder.mk "Team A" "abc" 1).id = true) ∧
      (((dictGet [("folderId", PyVal.int 99)] "folderUID").getD .null).truthy = true →
        ∃ u, dictGet opts' "folderUID" = some u ∧
          pyEqStr u (Folder.mk "Team A" "abc" 1).uid = true) ∧
      (((dictGet [("folderId", PyVal.int 99)] "folderId").getD .null).truthy = false →
        dictGet opts' "folderId" = dictGet [("folderId", PyVal.int 99)] "folderId") ∧
      (((dictGet [("folderId", PyVal.int 99)] "folderUID").getD .null).truthy = false →
        dictGet opts' "folderUID" = dictGet [("folderId", PyVal.int 99)] "folderUID") :=
  (C1_matched_dashlist_rewritten
    [("type", .str "dashlist"), ("title", .str "Team A"),
     ("options", .dict [("folderId", .int 99)])]
    [("folderId", .int 99)]
    [("Team A", ⟨"Team A", "abc", 1⟩)] "Team A" ⟨"Team A", "abc", 1⟩
    rfl rfl rfl rfl).1

/-- C3 counterexample: `options.folderId = 0` is present and differs from the
resolved folder's `id = 2`, yet `update_panel_dashlist_folder_ids` does not
overwrite it (the walrus guard tests truthiness, not presence). -/
theorem C3_counterexample :
    update_panel_dashlist_folder_ids
        (.dict [("type", .str "dashlist"), ("title", .str "Team B"),
                ("options", .dict [("folderId", .int 0)])])
        [("Team B", ⟨"Team B", "xyz", 2⟩)] =
      .ok (.dict [("type", .str "dashlist"), ("title", .str "Team B"),
                  ("options", .dict [("folderId", .int 0)])]) ∧
    dictGet [("folderId", PyVal.int 0)] "folderId" = some (.int 0) ∧
    pyEqInt (.int 0) (Folder.mk "Team B" "xyz" 2).id = false :=
  ⟨rfl, rfl, rfl⟩

/-- C3 (amended): for a matched dashlist panel,
`update_panel_dashlist_folder_ids` overwrites `options.folderId` exactly when
a *truthy* `folderId` value is present and Python-unequal to the folder's
`id` (falsy present values such as `0` are left alone), likewise
`options.folderUID` against the folder's `uid`; all other option entries —
in particular absent keys — are unchanged. -/
theorem C3_overwrite_iff_truthy_and_mismatched (p opts : List (String × PyVal))
    (fi : FolderInfo) (t : String) (folder : Folder)
    (htype : dictGet p "type" = some (.str "dashlist"))
    (htitle : dictGet p "title" = some (.str t))
    (hfold : lookupFolder fi t = some folder)
    (hopts : dictGet p "options" = some (.dict opts)) :
    ∃ p' opts', update_panel_dashlist_folder_ids (.dict p) fi = .ok (.dict p') ∧
      dictGet p' "options" = some (.dict opts') ∧
      dictGet opts' "folderId" =
        (if ((dictGet opts "folderId").getD .null).truthy &&
            !(pyEqInt ((dictGet opts "folderId").getD .null) folder.id)
         then some (.int folder.id) else dictGet opts "folderId") ∧
      dictGet opts' "folderUID" =
        (if ((dictGet opts "folderUID").getD .null).truthy &&
            !(pyEqStr ((dictGet opts "folderUID").getD .null) folder.uid)
         then some (.str folder.uid) else dictGet opts "folderUID") ∧
      ∀ k, k ≠ "folderId" → k ≠ "folderUID" → dictGet opts' k = dictGet opts k := by
  obtain ⟨p', hup, hopt', _⟩ :=
    update_panel_matched p opts fi t folder htype htitle hfold hopts
  obtain ⟨h1, h2, h3⟩ := matchedOptionsRewrite_spec opts folder
  exact ⟨p', (matchedOptionsRewrite opts folder).1, hup, hopt', h1, h2, h3⟩

/-- Witness for C3 (amended) at a concrete matched dashlist panel with a
truthy mismatched `folderId` and no `folderUID` key. -/
theorem C3_witness :
    ∃ p' opts',
      update_panel_dashlist_folder_ids
          (.dict [("type", .str "dashlist"), ("title", .str "Team B"),
                  ("options", .dict [("folderId", .int 99)])])
          [("Team B", ⟨"Team B", "xyz", 2⟩)] =
        .ok (.dict p') ∧
      dictGet p' "options" = some (.dict opts') ∧
      dictGet opts' "folderId" =
        (if ((dictGet [("folderId", PyVal.int 99)] "folderId").getD .null).truthy &&
            !(pyEqInt ((dictGet [("folderId", PyVal.int 99)] "folderId").getD .null)
              (Folder.mk "Team B" "xyz" 2).id)
         then some (.int (Folder.mk "Team B" "xyz" 2).id)
         else dictGet [("folderId", PyVal.int 99)] "folderId") ∧
      dictGet opts' "folderUID" =
        (if ((dictGet [("folderId", PyVal.int 99)] "folderUID").getD .null).truthy &&
            !(pyEqStr ((dictGet [("folderId", PyVal.int 99)] "folderUID").getD .null)
              (Folder.mk "Team B" "xyz" 2).uid)
         then some (.str (Folder.mk "Team B" "xyz" 2).uid)
         else dictGet [("folderId", PyVal.int 99)] "folderUID") ∧
      ∀ k, k ≠ "folderId" → k ≠ "folderUID" →
        dictGet opts' k = dictGet [("folderId", PyVal.int 99)] k :=
  C3_overwrite_iff_truthy_and_mismatched
    [("type", .str "dashlist"), ("title", .str "Team B"),
     ("options", .dict [("folderId", .int 99)])]
    [("folderId", .int 99)]
    [("Team B", ⟨"Team B", "xyz", 2⟩)] "Team B" ⟨"Team B", "xyz", 2⟩
    rfl rfl rfl rfl

/-- C7: when `source_dir/folders.json` is missing, `upload_dashboards`
resolves folders without error by building the title→`Folder` mapping from
the remote service's full folder list, each folder keyed by its title. -/
theorem C7_missing_manifest_falls_back (remote : List Folder) :
    load_folder_info none remote =
      .ok (remote.foldl (fun fi f => insertFolder fi f.title f) []) ∧
    ((remote.map Folder.title).Nodup → ∀ f ∈ remote,
      lookupFolder (remote.foldl (fun fi f => insertFolder fi f.title f) []) f.title =
        some f) :=
  ⟨rfl, fun hnd f hf => build_lookup remote [] hnd f hf⟩

/-- Witness for C7 at a concrete two-folder remote list. -/
theorem C7_witness :
    load_folder_info none [⟨"A", "a", 1⟩, ⟨"B", "b", 2⟩] =
      .ok [("A", ⟨"A", "a", 1⟩), ("B", ⟨"B", "b", 2⟩)] ∧
    lookupFolder [("A", ⟨"A", "a", 1⟩), ("B", ⟨"B", "b", 2⟩)] "B" = some ⟨"B", "b", 2⟩ :=
  ⟨rfl,
   (C7_missing_manifest_falls_back [⟨"A", "a", 1⟩, ⟨"B", "b", 2⟩]).2
     (by decide) ⟨"B", "b", 2⟩ (by decide)⟩

/-- C5: a subdirectory whose name is a key of the folder mapping leads to a
folder-creation request carrying that entry's uid with the mapping left
unchanged; a subdirectory with an unknown name leads to a creation request
without a uid and the service's returned Folder recorded in the mapping
under the returned Folder's title. -/
theorem C5_folder_materialization (create : String → Option String → Folder)
    (fi : FolderInfo) (dir : SourceFolderDir) (fi' : FolderInfo) (calls : List ApiCall)
    (h : process_folder_dir create fi dir = .ok (fi', calls)) :
    (∀ kf, lookupFolder fi dir.name = some kf →
      fi' = fi ∧ calls.head? = some (ApiCall.createFolder dir.name (some kf.uid))) ∧
    (lookupFolder fi dir.name = none →
      fi' = insertFolder fi (create dir.name none).title (create dir.name none) ∧
      calls.head? = some (ApiCall.createFolder dir.name none)) := by
  constructor
  · intro kf hkf
    simp only [process_folder_dir, hkf] at h
    obtain ⟨uploads, hfl, hpure⟩ := except_bind_ok _ _ _ h
    have hpair : (fi, uploads) = (fi', calls) := Except.ok.inj hpure
    have hfi : fi' = fi := (congrArg Prod.fst hpair).symm
    have hcalls : calls = uploads := (congrArg Prod.snd hpair).symm
    have hg1 : ∀ (acc : List ApiCall) (a : PyVal) (r : List ApiCall),
        (do
          let doc ← update_dashlist_folder_ids a fi
          pure (acc ++ [ApiCall.createDashboard doc kf.uid])) = Except.ok r →
        ∃ s, r = acc ++ s := by
      intro acc a r hr
      obtain ⟨doc', _, hrest⟩ := except_bind_ok _ _ _ hr
      exact ⟨[ApiCall.createDashboard doc' kf.uid], (Except.ok.inj hrest).symm⟩
    obtain ⟨s, hs⟩ := foldlM_append _ hg1 dir.files _ _ hfl
    refine ⟨hfi, ?_⟩
    rw [hcalls, hs]
    rfl
  · intro hkf
    simp only [process_folder_dir, hkf] at h
    obtain ⟨uploads, hfl, hpure⟩ := except_bind_ok _ _ _ h
    have hpair :
        (insertFolder fi (create dir.name none).title (create dir.name none), uploads) =
          (fi', calls) := Except.ok.inj hpure
    have hfi : fi' = insertFolder fi (create dir.name none).title (create dir.name none) :=
      (congrArg Prod.fst hpair).symm
    have hcalls : calls = uploads := (congrArg Prod.snd hpair).symm
    have hg2 : ∀ (acc : List ApiCall) (a : PyVal) (r : List ApiCall),
        (do
          let doc ← update_dashlist_folder_ids a
            (insertFolder fi (create dir.name none).title (create dir.name none))
          match lookupFolder
              (insertFolder fi (create dir.name none).title (create dir.name none))
              dir.name with
          | some f => pure (acc ++ [ApiCall.createDashboard doc f.uid])
          | none => Except.error ("KeyError: " ++ dir.name)) = Except.ok r →
        ∃ s, r = acc ++ s := by
      intro acc a r hr
      obtain ⟨doc', _, hrest⟩ := except_bind_ok _ _ _ hr
      cases hlf : lookupFolder
          (insertFolder fi (create dir.name none).title (create dir.name none)) dir.name with
      | none => rw [hlf] at hrest; simp at hrest
      | some f =>
          rw [hlf] at hrest
          exact ⟨[ApiCall.createDashboard doc' f.uid], (Except.ok.inj hrest).symm⟩
    obtain ⟨s, hs⟩ := foldlM_append _ hg2 dir.files _ _ hfl
    refine ⟨hfi, ?_⟩
    rw [hcalls, hs]
    rfl

/-- Witness for C5 at a known directory name (uid reused) and at an unknown
directory name (uid omitted, returned Folder recorded under its title). -/
theorem C5_witness :
    (([("A", Folder.mk "A" "abc" 1)] : FolderInfo) = [("A", Folder.mk "A" "abc" 1)] ∧
      [ApiCall.createFolder "A" (some "abc")].head? =
        some (ApiCall.createFolder "A" (some "abc"))) ∧
    (([("New", Folder.mk "New" "gen" 5)] : FolderInfo) =
        insertFolder [] (Folder.mk "New" "gen" 5).title (Folder.mk "New" "gen" 5) ∧
      [ApiCall.createFolder "New" none].head? = some (ApiCall.createFolder "New" none)) := by
  have h1 := C5_folder_materialization (fun n _ => ⟨n, "gen", 5⟩)
    [("A", ⟨"A", "abc", 1⟩)] ⟨"A", []⟩ [("A", ⟨"A", "abc", 1⟩)]
    [ApiCall.createFolder "A" (some "abc")] rfl
  have h2 := C5_folder_materialization (fun n _ => ⟨n, "gen", 5⟩)
    [] ⟨"New", []⟩ [("New", ⟨"New", "gen", 5⟩)] [ApiCall.createFolder "New" none] rfl
  exact ⟨h1.1 ⟨"A", "abc", 1⟩ rfl, h2.2 rfl⟩

/-- C10 (implicit): after an unknown directory name causes folder creation,
the returned Folder is recorded under the *returned* title; the per-file
upload then looks up `folder_info[dir.name]`, so processing the directory's
files succeeds when the returned title equals the directory name and fails
with a `KeyError` otherwise. -/
theorem C10_new_folder_recorded_under_returned_title
    (create : String → Option String → Folder) (fi : FolderInfo) (name : String)
    (doc doc' : PyVal)
    (hnone : lookupFolder fi name = none)
    (hupd : update_dashlist_folder_ids doc
        (insertFolder fi (create name none).title (create name none)) = .ok doc') :
    process_folder_dir create fi ⟨name, [doc]⟩ =
      (if (create name none).title = name then
        .ok (insertFolder fi (create name none).title (create name none),
             [ApiCall.createFolder name none,
              ApiCall.createDashboard doc' (create name none).uid])
      else .error ("KeyError: " ++ name)) := by
  by_cases ht : (create name none).title = name
  · rw [if_pos ht]
    simp only [process_folder_dir, hnone, List.foldlM_cons, List.foldlM_nil, ok_bind]
    rw [hupd]
    simp only [ok_bind, ht, lookupFolder_insertFolder_self]
    rfl
  · rw [if_neg ht]
    simp only [process_folder_dir, hnone, List.foldlM_cons, ok_bind]
    rw [hupd]
    simp only [ok_bind,
      lookupFolder_insertFolder_ne _ _ _ _ (fun hh => ht hh.symm), hnone]
    rfl

/-- Witness for C10: a service returning a differently-titled Folder makes
the upload of the directory's single file fail with a `KeyError`, while a
service echoing the requested name lets it succeed. -/
theorem C10_witness :
    process_folder_dir (fun n _ => ⟨n ++ "-created", "gen", 5⟩) [] ⟨"NewTeam", [.dict [("title", .str "d")]]⟩ =
      .error ("KeyError: " ++ "NewTeam") ∧
    process_folder_dir (fun n _ => ⟨n, "gen", 5⟩) [] ⟨"NewTeam", [.dict [("title", .str "d")]]⟩ =
      .ok ([("NewTeam", ⟨"NewTeam", "gen", 5⟩)],
           [ApiCall.createFolder "NewTeam" none,
            ApiCall.createDashboard (.dict [("title", .str "d")]) "gen"]) := by
  constructor
  · have h := C10_new_folder_recorded_under_returned_title
      (fun n _ => ⟨n ++ "-created", "gen", 5⟩) [] "NewTeam"
      (.dict [("title", .str "d")]) (.dict [("title", .str "d")]) rfl rfl
    rwa [if_neg (by decide)] at h
  · have h := C10_new_folder_recorded_under_returned_title
      (fun n _ => ⟨n, "gen", 5⟩) [] "NewTeam"
      (.dict [("title", .str "d")]) (.dict [("title", .str "d")]) rfl rfl
    rwa [if_pos rfl] at h

/-- Witness for C8 at a missing source directory and at a missing
`home.json`. -/
theorem C8_witness :
    set_home_dashboard none (some (.dict [("title", .str "Home")])) [] (fun _ => "uid") = .ok [] ∧
    set_home_dashboard (some "dashboards") none [] (fun _ => "uid") = .ok [] :=
  ⟨(C8_home_dashboard_skipped none _ [] _).1 rfl,
   (C8_home_dashboard_skipped (some "dashboards") none [] _).2 rfl⟩

end DashboardUpload
